import Mathlib

/-!
Shallow embedding of the catalog / access-control core of `src/app.py`
(AmbrosioPeters repository): role ranking, minimum-grade normalization,
catalog loading and schema normalization, id assignment on append,
atomic persistence, and stored-path resolution.

Python strings are modelled by Lean `String`; the Python string
operations used by the code (`strip`, `lower`, `replace`, `startswith`,
slicing) are re-implemented over the character list with the same
semantics on the ASCII inputs the catalog uses.  Filesystem paths are
modelled as lists of components (`FPath`); the filesystem itself is an
explicit state threaded through the operations that touch it.
-/

namespace AmbrosioPeters

/-! ### Python string primitives -/

/-- Python `str.strip()`: drop whitespace from both ends. -/
def pyStrip (s : String) : String :=
  ⟨((s.data.dropWhile Char.isWhitespace).reverse.dropWhile Char.isWhitespace).reverse⟩

/-- Python `str.lower()` (ASCII case folding, as used by the catalog data). -/
def pyLower (s : String) : String :=
  ⟨s.data.map Char.toLower⟩

/-- Python `s.startswith(pre)`. -/
def pyStartsWith (s pre : String) : Bool :=
  s.data.take pre.data.length == pre.data

/-- Python slicing `s[n:]`. -/
def pyDrop (s : String) (n : Nat) : String :=
  ⟨s.data.drop n⟩

/-- Python `s.replace("\\", "/")` — the pattern is a single character,
so this is a character-wise substitution. -/
def replaceBackslashes (s : String) : String :=
  ⟨s.data.map (fun c => if c = '\\' then '/' else c)⟩

/-! ### Roles and grades — `ROLE_LEVEL`, `GRAU_LEVEL`, `allowed_by_role`
(src/app.py lines 22-23 and 253-254) -/

/-- Python dict `ROLE_LEVEL`: aprendiz 1, companheiro 2, mestre 3. -/
def ROLE_LEVEL : List (String × Nat) :=
  [("aprendiz", 1), ("companheiro", 2), ("mestre", 3)]

/-- Python dict `GRAU_LEVEL`: Aprendiz 1, Companheiro 2, Mestre 3. -/
def GRAU_LEVEL : List (String × Nat) :=
  [("Aprendiz", 1), ("Companheiro", 2), ("Mestre", 3)]

/-- Python `dict.get(k, dflt)` on a small literal dict. -/
def dictGet (d : List (String × Nat)) (k : String) (dflt : Nat) : Nat :=
  ((d.find? (fun kv => kv.1 == k)).map Prod.snd).getD dflt

/-- The predicate `allowed_by_role(user_role, grau_minimo)`:
`ROLE_LEVEL.get(user_role, 1) >= GRAU_LEVEL.get(grau_minimo, 3)`. -/
def allowed_by_role (user_role grau_minimo : String) : Bool :=
  dictGet ROLE_LEVEL user_role 1 ≥ dictGet GRAU_LEVEL grau_minimo 3

/-- The spec's viewer rank: Apprentice(1) < Companion(2) < Master(3),
any unrecognized viewer role ranks as Apprentice(1). -/
def viewerRank (v : String) : Nat :=
  if v = "aprendiz" then 1
  else if v = "companheiro" then 2
  else if v = "mestre" then 3
  else 1

/-- The spec's rank of a canonical minimum-grade label. -/
def grauRank (g : String) : Nat :=
  if g = "Aprendiz" then 1
  else if g = "Companheiro" then 2
  else if g = "Mestre" then 3
  else 3

/-- The three canonical minimum-grade labels. -/
def grauLabels : List String := ["Aprendiz", "Companheiro", "Mestre"]

/-- The three recognized viewer-role keys. -/
def roleKeys : List String := ["aprendiz", "companheiro", "mestre"]

/-! ### Minimum-grade normalization (src/app.py lines 406-414)

`df["grau_minimo"].astype(str).str.strip().str.lower()
   .map({"aprendiz": "Aprendiz", "companheiro": "Companheiro", "mestre": "Mestre"})
   .fillna("Mestre")`, modelled cell-wise. -/

/-- Cell-wise normalization of the `grau_minimo` column. -/
def normalize_grau_minimo (raw : String) : String :=
  let s := pyLower (pyStrip raw)
  if s = "aprendiz" then "Aprendiz"
  else if s = "companheiro" then "Companheiro"
  else if s = "mestre" then "Mestre"
  else "Mestre"

/-! ### New-id assignment on upload (src/app.py line 582)

`novo_id = int(pd.to_numeric(df_atual["id"], errors="coerce").max()) + 1
           if not df_atual.empty else 1`

A table is modelled by its rows; each row carries the numeric coercion of
its `id` cell (`some n` when `pd.to_numeric` parses the cell, `none` for
the `NaN` a non-numeric cell coerces to) together with the rest of the
row. `Series.max` skips `NaN` values; when every value is `NaN` it
returns `NaN`, and `int(NaN)` raises — modelled by `none`. -/

/-- Python `pd.to_numeric(ids, errors="coerce").max()` (skipna semantics). -/
def seriesMax (ids : List (Option Int)) : Option Int :=
  (ids.filterMap id).max?

/-- Python `int(series.max()) + 1 if not df.empty else 1`; `none` models the
`ValueError` raised by `int(NaN)`. -/
def novo_id (ids : List (Option Int)) : Option Int :=
  if ids = [] then some 1
  else (seriesMax ids).map (· + 1)

/-- The upload append block: compute `novo_id` from the id column, then
`pd.concat([df, pd.DataFrame([nova_linha])])`. `none` models the raised
exception (no row is appended). -/
def append_catalogo {α : Type} (rows : List (Option Int × α)) (payload : α) :
    Option (List (Option Int × α)) :=
  (novo_id (rows.map Prod.fst)).map (fun i => rows ++ [(some i, payload)])

/-! ### Catalog loading — `load_catalogo` (src/app.py lines 184-222) -/

/-- The list `REQUIRED_COLS` (src/app.py lines 186-187). -/
def REQUIRED_COLS : List String :=
  ["id", "titulo", "autor", "genero", "descricao", "grau_minimo", "arquivo", "capa"]

/-- A parsed dataframe: a row count and an ordered list of named columns. -/
structure RawTable where
  nRows : Nat
  cols : List (String × List String)
deriving DecidableEq

/-- Python `c in df.columns`. -/
def hasCol (df : RawTable) (c : String) : Bool :=
  df.cols.any (fun kv => kv.1 == c)

/-- Python `df[c]` (first column named `c`). -/
def getCol (df : RawTable) (c : String) : Option (List String) :=
  (df.cols.find? (fun kv => kv.1 == c)).map Prod.snd

/-- The `missing = [c for c in REQUIRED_COLS if c not in df.columns];
for c in missing: df[c] = ""` block: synthesize each absent required
column as empty strings (new columns are appended on the right). -/
def ensureRequired (df : RawTable) : RawTable :=
  { df with
    cols := df.cols ++
      (REQUIRED_COLS.filter (fun c => !hasCol df c)).map
        (fun c => (c, List.replicate df.nRows "")) }

/-- Python `df = df[REQUIRED_COLS]`: project to exactly the required columns in
canonical order, discarding extras. -/
def projectRequired (df : RawTable) : RawTable :=
  { nRows := df.nRows
    cols := REQUIRED_COLS.map (fun c => (c, (getCol df c).getD [])) }

/-- The schema-normalization tail of `load_catalogo` (lines 215-222). -/
def normalize_table (df : RawTable) : RawTable :=
  projectRequired (ensureRequired df)

/-- The three encodings tried by `load_catalogo`, in order. -/
inductive Enc
  | utf8
  | utf8sig
  | latin1
deriving DecidableEq

/-- The four separators tried by `load_catalogo`, in order
(`None` = auto-detect). -/
inductive Sep
  | auto
  | comma
  | semi
  | tab
deriving DecidableEq

/-- Outer loop order: `("utf-8", "utf-8-sig", "latin-1")`. -/
def encOrder : List Enc := [.utf8, .utf8sig, .latin1]

/-- Inner loop order: `(None, ",", ";", "\t")`. -/
def sepOrder : List Sep := [.auto, .comma, .semi, .tab]

/-- The environment `load_catalogo` reads: whether the backing file
exists, its size, and the outcome of `pd.read_csv` for each
encoding/separator candidate on the file's current bytes. -/
structure LoadEnv where
  fileExists : Bool
  fileSize : Nat
  parse : Enc → Sep → Option RawTable

/-- The inner `for sep in (None, ",", ";", "\t")` loop: first success. -/
def tryEnc (env : LoadEnv) (e : Enc) : Option RawTable :=
  sepOrder.findSome? (env.parse e)

/-- The nested parse loop (lines 200-209): encodings outermost,
separators innermost, first success wins. -/
def try_read (env : LoadEnv) : Option RawTable :=
  encOrder.findSome? (tryEnc env)

/-- The empty catalog dataframe: the eight required columns, zero rows.
This is both what `write_template` serializes and what
`pd.DataFrame(columns=REQUIRED_COLS)` builds. -/
def templateTable : RawTable :=
  { nRows := 0, cols := REQUIRED_COLS.map (fun c => (c, [])) }

/-- What a call to `load_catalogo` produced: the returned table, whether
`st.error` was shown, and the dataframe written to the backing path
(`none` when the call wrote nothing). -/
structure LoadResult where
  table : RawTable
  warned : Bool
  written : Option RawTable
deriving DecidableEq

/-- The loader `load_catalogo(path)` (lines 184-222). The absent/zero-length branch
writes a fresh template and re-reads it; total parse failure warns and
returns an empty dataframe without touching the file; a successful parse
is schema-normalized. -/
def load_catalogo (env : LoadEnv) : LoadResult :=
  if env.fileExists = false ∨ env.fileSize = 0 then
    { table := templateTable, warned := false, written := some templateTable }
  else
    match try_read env with
    | none => { table := templateTable, warned := true, written := none }
    | some df => { table := normalize_table df, warned := false, written := none }

/-! ### Atomic persistence — `atomic_write_csv` (src/app.py lines 178-182)

```
path.parent.mkdir(parents=True, exist_ok=True)
tmp = path.with_suffix(path.suffix + ".tmp")
df.to_csv(tmp, index=False)
tmp.replace(path)
```

A filesystem path is a list of components; the filesystem maps paths to
file data (`writing` while `to_csv` is streaming the file, `full` once
it is complete) and records which paths are directories.  The operation
is modelled as the sequence of filesystem states a concurrent reader
could observe. -/

/-- A filesystem path, as its list of components. -/
abbrev FPath := List String

/-- What a path's bytes deserialize to, for files of table type `τ`:
`writing t` is a partially written serialization of `t`, `full t` a
complete one. -/
inductive FileData (τ : Type)
  | writing (t : τ)
  | full (t : τ)
deriving DecidableEq

/-- A filesystem snapshot. -/
structure FS (τ : Type) where
  files : FPath → Option (FileData τ)
  isDir : FPath → Bool

/-- Python `path.parent`. -/
def parentOf (p : FPath) : FPath := p.dropLast

/-- Python `path.with_suffix(path.suffix + ".tmp")`: the sibling whose final
component is the original final component with `".tmp"` appended. -/
def tmpPath (p : FPath) : FPath :=
  parentOf p ++ [p.getLastD "" ++ ".tmp"]

/-- Update a file map at one path. -/
def setFile {τ : Type} (m : FPath → Option (FileData τ)) (p : FPath)
    (v : Option (FileData τ)) : FPath → Option (FileData τ) :=
  fun q => if q = p then v else m q

/-- Python `path.parent.mkdir(parents=True, exist_ok=True)`: every ancestor of
the parent (each `List.take`-initial segment of it) becomes a directory. -/
def mkdirParents {τ : Type} (fs : FS τ) (p : FPath) : FS τ :=
  { fs with isDir := fun q => fs.isDir q || (q == (parentOf p).take q.length) }

/-- The filesystem states produced by `atomic_write_csv fs t p`, in
order: after `mkdir`, while `to_csv` streams the temporary file, after
`to_csv` finishes, and after `tmp.replace(path)`. -/
def atomic_write_csv {τ : Type} (fs : FS τ) (t : τ) (p : FPath) : List (FS τ) :=
  let fs1 := mkdirParents fs p
  let fs2 := { fs1 with files := setFile fs1.files (tmpPath p) (some (.writing t)) }
  let fs3 := { fs2 with files := setFile fs2.files (tmpPath p) (some (.full t)) }
  let fs4 :=
    { fs3 with files := setFile (setFile fs3.files (tmpPath p) none) p (some (.full t)) }
  [fs1, fs2, fs3, fs4]

/-- The filesystem state after `atomic_write_csv` returns. -/
def atomic_write_final {τ : Type} (fs : FS τ) (t : τ) (p : FPath) : FS τ :=
  (atomic_write_csv fs t p).getLastD fs

/-! ### Stored-path resolution — `normalize_catalog_path` (src/app.py
lines 131-161)

Relative paths are anchored at the application base directory, modelled
as the abstract component `"<BASE_DIR>"`; absolute POSIX paths start at
the root marker `"/"`.  Which paths name existing files is an
environment parameter. -/

/-- The application base directory (`BASE_DIR`), as an abstract root. -/
def BASE_DIR : FPath := ["<BASE_DIR>"]

/-- The directory `ASSETS_DIR = BASE_DIR / "assets"`. -/
def ASSETS_DIR : FPath := BASE_DIR ++ ["assets"]

/-- The sentinel `Path("__INVALID__")`. -/
def INVALID_PATH : FPath := ["__INVALID__"]

/-- The `pathlib` components of a path string: split on `/`, dropping empty
and `"."` segments. -/
def pathParts (s : String) : List String :=
  ((s.data.splitOn '/').filter (fun l => l ≠ [] ∧ l ≠ ['.'])).map fun l => ⟨l⟩

/-- Python `Path(s).name`: the final component, `""` when there is none. -/
def pyPathName (s : String) : String :=
  (pathParts s).getLastD ""

/-- Python `Path(s)` followed by `if not p.is_absolute(): p = BASE_DIR / s`. -/
def anchor (s : String) : FPath :=
  if s.data.take 1 = ['/'] then "/" :: pathParts s
  else BASE_DIR ++ pathParts s

/-- The join `dir / name` (`pathlib` ignores an empty final segment). -/
def joinName (d : FPath) (n : String) : FPath :=
  if n = "" then d else d ++ [n]

/-- The pure string normalization of `normalize_catalog_path` (lines
142-147): `str(raw).strip()`, backslash repair, the `"assets." →
"assets/"` typo repair on a matching head, and stripping a leading
`"./"`. -/
def normRaw (raw : String) : String :=
  let s := pyStrip raw
  let s := replaceBackslashes s
  let s := if pyStartsWith s "assets." then "assets/" ++ pyDrop s 7 else s
  if pyStartsWith s "./" then pyDrop s 2 else s

/-- Which paths name existing files, from the resolver's point of view. -/
structure PathEnv where
  isFile : FPath → Bool

/-- The resolver `normalize_catalog_path(raw)` (lines 131-161): empty input is
invalid; otherwise normalize the string, try the anchored path, then
`ASSETS_DIR / Path(s).name`, and fall back to the invalid sentinel.
Total by construction — it never throws. -/
def normalize_catalog_path (env : PathEnv) (raw : String) : FPath :=
  if raw = "" then INVALID_PATH
  else if env.isFile (anchor (normRaw raw)) then anchor (normRaw raw)
  else if env.isFile (joinName ASSETS_DIR (pyPathName (normRaw raw))) then
    joinName ASSETS_DIR (pyPathName (normRaw raw))
  else INVALID_PATH

/-! ## Helper lemmas -/

lemma beq_false_of_ne {v a : String} (ha : ¬ v = a) : (a == v) = false := by
  simp only [beq_eq_false_iff_ne, ne_eq]
  exact fun h => ha h.symm

lemma dictGet_role (v : String) : dictGet ROLE_LEVEL v 1 = viewerRank v := by
  by_cases h1 : v = "aprendiz"
  · subst h1; decide
  by_cases h2 : v = "companheiro"
  · subst h2; decide
  by_cases h3 : v = "mestre"
  · subst h3; decide
  simp [dictGet, ROLE_LEVEL, viewerRank, List.find?, beq_false_of_ne h1,
    beq_false_of_ne h2, beq_false_of_ne h3, h1, h2, h3]

lemma dictGet_grau (g : String) : dictGet GRAU_LEVEL g 3 = grauRank g := by
  by_cases h1 : g = "Aprendiz"
  · subst h1; decide
  by_cases h2 : g = "Companheiro"
  · subst h2; decide
  by_cases h3 : g = "Mestre"
  · subst h3; decide
  simp [dictGet, GRAU_LEVEL, grauRank, List.find?, beq_false_of_ne h1,
    beq_false_of_ne h2, beq_false_of_ne h3, h1, h2, h3]

lemma allowed_iff (v g : String) :
    allowed_by_role v g = true ↔ grauRank g ≤ viewerRank v := by
  simp [allowed_by_role, dictGet_role, dictGet_grau, ge_iff_le]

/-- Searching with `find?` and an equality test returns the sought element itself
whenever it occurs. -/
lemma find?_beq_self {l : List String} {c : String} (h : c ∈ l) :
    l.find? (fun x => x == c) = some c := by
  induction l with
  | nil => cases h
  | cons a l ih =>
    rcases List.mem_cons.mp h with rfl | h'
    · simp [List.find?]
    · by_cases ha : a = c
      · subst ha; simp [List.find?]
      · simpa [List.find?, beq_false_of_ne fun e => ha e.symm] using ih h'

/-! ## Claims -/

/-- C1: for every viewer role and every canonical minimum-grade label,
`allowed_by_role` (the code's `is_visible`) returns true exactly when
the viewer's rank is at least the grade's rank under
Apprentice(1) < Companion(2) < Master(3); it matches the full
9-combination truth table for the three recognized roles, and any
viewer role outside `{aprendiz, companheiro, mestre}` ranks as
Apprentice(1). -/
theorem C1_is_visible_rank :
    (∀ v g, g ∈ grauLabels →
      (allowed_by_role v g = true ↔ grauRank g ≤ viewerRank v)) ∧
    (∀ v, v ∉ roleKeys → dictGet ROLE_LEVEL v 1 = 1) ∧
    (allowed_by_role "aprendiz" "Aprendiz" = true ∧
      allowed_by_role "aprendiz" "Companheiro" = false ∧
      allowed_by_role "aprendiz" "Mestre" = false ∧
      allowed_by_role "companheiro" "Aprendiz" = true ∧
      allowed_by_role "companheiro" "Companheiro" = true ∧
      allowed_by_role "companheiro" "Mestre" = false ∧
      allowed_by_role "mestre" "Aprendiz" = true ∧
      allowed_by_role "mestre" "Companheiro" = true ∧
      allowed_by_role "mestre" "Mestre" = true) := by
  refine ⟨fun v g _ => allowed_iff v g, fun v hv => ?_, by decide⟩
  have h : ¬ v = "aprendiz" ∧ ¬ v = "companheiro" ∧ ¬ v = "mestre" := by
    simpa [roleKeys] using hv
  simp [dictGet_role, viewerRank, h.1, h.2.1, h.2.2]

/-- Witness for C1 at concrete inputs: viewer Companion may not see a
Master-only entry, and an unrecognized viewer role ranks as 1. -/
theorem C1_is_visible_rank_witness :
    allowed_by_role "companheiro" "Mestre" = false ∧
    dictGet ROLE_LEVEL "visitante" 1 = 1 := by
  constructor
  · have h := C1_is_visible_rank.1 "companheiro" "Mestre" (by decide)
    refine Bool.eq_false_iff.mpr fun hb => ?_
    exact absurd (h.mp hb) (by decide)
  · exact C1_is_visible_rank.2.1 "visitante" (by decide)

/-- C2: the `grau_minimo` normalization trims whitespace, matches
case-insensitively against the three role names, maps anything
unrecognized (including the empty string) to `"Mestre"`, and in
particular sends `"Aprendiz"`, `"COMPANHEIRO"`, `" mestre "`, `""`,
`"xyz"` to `"Aprendiz"`, `"Companheiro"`, `"Mestre"`, `"Mestre"`,
`"Mestre"` respectively. -/
theorem C2_normalize_min_grade :
    (∀ raw, pyLower (pyStrip raw) = "aprendiz" →
      normalize_grau_minimo raw = "Aprendiz") ∧
    (∀ raw, pyLower (pyStrip raw) = "companheiro" →
      normalize_grau_minimo raw = "Companheiro") ∧
    (∀ raw, pyLower (pyStrip raw) = "mestre" →
      normalize_grau_minimo raw = "Mestre") ∧
    (∀ raw, pyLower (pyStrip raw) ∉ roleKeys →
      normalize_grau_minimo raw = "Mestre") ∧
    (normalize_grau_minimo "Aprendiz" = "Aprendiz" ∧
      normalize_grau_minimo "COMPANHEIRO" = "Companheiro" ∧
      normalize_grau_minimo " mestre " = "Mestre" ∧
      normalize_grau_minimo "" = "Mestre" ∧
      normalize_grau_minimo "xyz" = "Mestre") := by
  refine ⟨fun raw h => ?_, fun raw h => ?_, fun raw h => ?_, fun raw h => ?_, by decide⟩
  · simp [normalize_grau_minimo, h]
  · simp [normalize_grau_minimo, h]
  · simp [normalize_grau_minimo, h]
  · have h' : ¬ pyLower (pyStrip raw) = "aprendiz" ∧
        ¬ pyLower (pyStrip raw) = "companheiro" ∧
        ¬ pyLower (pyStrip raw) = "mestre" := by
      simpa [roleKeys] using h
    simp [normalize_grau_minimo, h'.1, h'.2.1, h'.2.2]

/-- Witness for C2 at concrete inputs: `" mestre "` trims and lowercases
to a recognized key, `"xyz"` to an unrecognized one. -/
theorem C2_normalize_min_grade_witness :
    normalize_grau_minimo " mestre " = "Mestre" ∧
    normalize_grau_minimo "xyz" = "Mestre" :=
  ⟨C2_normalize_min_grade.2.2.1 " mestre " (by decide),
   C2_normalize_min_grade.2.2.2.1 "xyz" (by decide)⟩

/-- C3: the upload append assigns the new entry's id as
`max(existing ids, treating non-numeric as absent) + 1` — i.e. one more
than the skip-NaN maximum of the numerically coerced id column — or `1`
on an empty table, and concatenates the new row at the end; appending to
an empty table assigns id 1, and appending to a table with ids
`{1, 3, "bad"}` assigns id 4. -/
theorem C3_append_id_assignment :
    (∀ payload : String,
      append_catalogo ([] : List (Option Int × String)) payload
        = some [(some 1, payload)]) ∧
    (∀ (rows : List (Option Int × String)) (payload : String) (m : Int),
      seriesMax (rows.map Prod.fst) = some m →
      append_catalogo rows payload = some (rows ++ [(some (m + 1), payload)])) ∧
    (append_catalogo [((some 1 : Option Int), "a"), (some 3, "b"), (none, "c")] "d"
      = some [(some 1, "a"), (some 3, "b"), (none, "c"), (some 4, "d")]) := by
  refine ⟨fun payload => by simp [append_catalogo, novo_id], fun rows payload m h => ?_,
    by decide⟩
  have hne : ¬ rows.map Prod.fst = [] := by
    intro he
    rw [he] at h
    simp [seriesMax] at h
  simp [append_catalogo, novo_id, hne, h]

/-- Witness for C3: the skip-NaN maximum of ids `{1, 3, NaN}` is 3 and
the appended row gets id `3 + 1`. -/
theorem C3_append_id_assignment_witness :
    append_catalogo [((some 1 : Option Int), "a"), (some 3, "b"), (none, "c")] "d"
      = some [(some 1, "a"), (some 3, "b"), (none, "c"), (some ((3 : Int) + 1), "d")] :=
  C3_append_id_assignment.2.1
    [((some 1 : Option Int), "a"), (some 3, "b"), (none, "c")] "d" 3 (by decide)

/-- C10: on a non-empty table none of whose id values coerces to a
number, the new-id computation raises (`int(NaN)`, modelled as `none`)
and no row is appended. -/
theorem C10_all_nan_ids_raise :
    ∀ (rows : List (Option Int × String)) (payload : String),
      rows ≠ [] → (∀ r ∈ rows, r.1 = none) →
      append_catalogo rows payload = none := by
  intro rows payload hne hall
  have hids : ¬ rows.map Prod.fst = [] := by
    simpa using hne
  have hfm : (rows.map Prod.fst).filterMap id = [] := by
    rw [List.filterMap_eq_nil_iff]
    intro a ha
    rcases List.mem_map.mp ha with ⟨r, hr, rfl⟩
    exact hall r hr
  simp [append_catalogo, novo_id, seriesMax, hids, hfm]

/-- Witness for C10: a one-row table whose only id is non-numeric. -/
theorem C10_all_nan_ids_raise_witness :
    append_catalogo [((none : Option Int), "a")] "d" = none :=
  C10_all_nan_ids_raise [(none, "a")] "d" (by decide) (by decide)

/-- C4: when the backing file exists, is non-empty, and every one of the
twelve (encoding, separator) candidates fails to parse — encodings
outermost, separators innermost, first success returned —
`load_catalogo` warns, returns the empty eight-column table, and writes
nothing to the source file. -/
theorem C4_parse_failure_degrades :
    ∀ env : LoadEnv, env.fileExists = true → env.fileSize ≠ 0 →
      (∀ e s, env.parse e s = none) →
      load_catalogo env = { table := templateTable, warned := true, written := none } ∧
      templateTable.cols.map Prod.fst = REQUIRED_COLS ∧
      templateTable.nRows = 0 := by
  intro env hex hsz hfail
  have hread : try_read env = none := by
    simp [try_read, tryEnc, encOrder, sepOrder, List.findSome?_cons, hfail]
  refine ⟨?_, by decide, by decide⟩
  simp [load_catalogo, hex, hsz, hread]

/-- Witness for C4: an environment whose file exists, has size 5, and
fails every parse candidate. -/
theorem C4_parse_failure_degrades_witness :
    load_catalogo ⟨true, 5, fun _ _ => none⟩
      = { table := templateTable, warned := true, written := none } :=
  (C4_parse_failure_degrades ⟨true, 5, fun _ _ => none⟩ rfl (by decide)
    (fun _ _ => rfl)).1

/-- C7: when the backing file is absent or zero-length, `load_catalogo`
writes the fresh empty-with-header template to the path and returns the
eight-required-column, zero-row table matching what it wrote. -/
theorem C7_absent_or_empty_file :
    ∀ env : LoadEnv, (env.fileExists = false ∨ env.fileSize = 0) →
      load_catalogo env
        = { table := templateTable, warned := false, written := some templateTable } ∧
      templateTable.cols.map Prod.fst = REQUIRED_COLS ∧
      templateTable.nRows = 0 ∧
      (∀ c ∈ REQUIRED_COLS, getCol templateTable c = some []) := by
  intro env h
  refine ⟨?_, by decide, by decide, by decide⟩
  rw [load_catalogo, if_pos h]

/-- Witness for C7: a zero-length existing file. -/
theorem C7_absent_or_empty_file_witness :
    load_catalogo ⟨true, 0, fun _ _ => none⟩
      = { table := templateTable, warned := false, written := some templateTable } :=
  (C7_absent_or_empty_file ⟨true, 0, fun _ _ => none⟩ (Or.inr rfl)).1

lemma getCol_projectRequired (df : RawTable) {c : String} (hc : c ∈ REQUIRED_COLS) :
    getCol (projectRequired df) c = some ((getCol df c).getD []) := by
  unfold getCol projectRequired
  rw [List.find?_map]
  have hp : ((fun kv : String × List String => kv.1 == c) ∘
      fun c' => (c', (getCol df c').getD [])) = fun c' => c' == c := rfl
  rw [hp, find?_beq_self hc]
  rfl

lemma find?_col_isSome {df : RawTable} {c : String} (h : hasCol df c = true) :
    (df.cols.find? fun kv => kv.1 == c).isSome := by
  rw [List.find?_isSome]
  simpa [hasCol, List.any_eq_true] using h

lemma getCol_ensureRequired_mem (df : RawTable) (c : String) (h : hasCol df c = true) :
    getCol (ensureRequired df) c = getCol df c := by
  unfold getCol ensureRequired
  rw [List.find?_append]
  obtain ⟨kv, hkv⟩ := Option.isSome_iff_exists.mp (find?_col_isSome h)
  rw [hkv]
  rfl

lemma getCol_ensureRequired_not (df : RawTable) {c : String} (hc : c ∈ REQUIRED_COLS)
    (h : hasCol df c = false) :
    getCol (ensureRequired df) c = some (List.replicate df.nRows "") := by
  unfold getCol ensureRequired
  rw [List.find?_append]
  have h0 : df.cols.find? (fun kv => kv.1 == c) = none := by
    rw [List.find?_eq_none]
    intro kv hkv
    have h' : ∀ kv ∈ df.cols, ¬ kv.1 = c := by
      simpa [hasCol, List.any_eq_true] using h
    simpa using h' kv hkv
  rw [h0, List.find?_map]
  have hmem : c ∈ REQUIRED_COLS.filter (fun c' => !hasCol df c') := by
    rw [List.mem_filter]
    exact ⟨hc, by simp [h]⟩
  have hp : ((fun kv : String × List String => kv.1 == c) ∘
      fun c' => (c', List.replicate df.nRows "")) = fun c' => c' == c := rfl
  rw [hp, find?_beq_self hmem]
  rfl

/-- C6: after a successful parse, `load_catalogo`'s schema
normalization produces exactly the eight required columns in canonical
order and preserves the row count; a required column present in the
source keeps its values, an absent one is synthesized with
empty-string values, and any extra column is discarded. -/
theorem C6_schema_normalization :
    ∀ df : RawTable,
      ((normalize_table df).cols.map Prod.fst = REQUIRED_COLS) ∧
      ((normalize_table df).nRows = df.nRows) ∧
      (∀ c ∈ REQUIRED_COLS, hasCol df c = true →
        getCol (normalize_table df) c = getCol df c) ∧
      (∀ c ∈ REQUIRED_COLS, hasCol df c = false →
        getCol (normalize_table df) c = some (List.replicate df.nRows "")) ∧
      (∀ c, c ∉ REQUIRED_COLS → hasCol (normalize_table df) c = false) := by
  intro df
  refine ⟨?_, ?_, ?_, ?_, ?_⟩
  · have hid : (Prod.fst ∘ fun c => (c, (getCol (ensureRequired df) c).getD []))
        = fun c : String => c := rfl
    simp only [normalize_table, projectRequired, List.map_map, hid]
    exact REQUIRED_COLS.map_id'
  · simp [normalize_table, projectRequired, ensureRequired]
  · intro c hc hhas
    rw [normalize_table, getCol_projectRequired (ensureRequired df) hc,
      getCol_ensureRequired_mem df c hhas]
    obtain ⟨kv, hkv⟩ := Option.isSome_iff_exists.mp (find?_col_isSome hhas)
    simp [getCol, hkv]
  · intro c hc hhas
    rw [normalize_table, getCol_projectRequired (ensureRequired df) hc,
      getCol_ensureRequired_not df hc hhas]
    rfl
  · intro c hc
    have h' : ∀ c' ∈ REQUIRED_COLS, ¬ c' = c := fun c' h' e => hc (e ▸ h')
    simp only [normalize_table, projectRequired, hasCol]
    rw [List.any_eq_false]
    intro kv hkv
    obtain ⟨c', hc', rfl⟩ := List.mem_map.mp hkv
    simpa using h' c' hc'

/-- Witness for C6 on a concrete parsed table with one extra column
(`extra`), one present required column (`titulo`), and the remaining
required columns absent. -/
theorem C6_schema_normalization_witness :
    getCol (normalize_table ⟨2, [("extra", ["e1", "e2"]), ("titulo", ["t1", "t2"])]⟩)
        "titulo"
      = getCol ⟨2, [("extra", ["e1", "e2"]), ("titulo", ["t1", "t2"])]⟩ "titulo" ∧
    getCol (normalize_table ⟨2, [("extra", ["e1", "e2"]), ("titulo", ["t1", "t2"])]⟩)
        "id"
      = some (List.replicate 2 "") ∧
    hasCol (normalize_table ⟨2, [("extra", ["e1", "e2"]), ("titulo", ["t1", "t2"])]⟩)
        "extra"
      = false :=
  ⟨(C6_schema_normalization _).2.2.1 "titulo" (by decide) (by decide),
   (C6_schema_normalization _).2.2.2.1 "id" (by decide) (by decide),
   (C6_schema_normalization _).2.2.2.2 "extra" (by decide)⟩

lemma tmpPath_parent (p : FPath) : parentOf (tmpPath p) = parentOf p := by
  simp [tmpPath, parentOf, List.dropLast_concat]

lemma tmpPath_ne {p : FPath} (hp : p ≠ []) : tmpPath p ≠ p := by
  intro h
  obtain ⟨l, a, rfl⟩ : ∃ l a, p = l ++ [a] := by
    rcases List.eq_nil_or_concat p with h' | ⟨l, a, h'⟩
    · exact absurd h' hp
    · exact ⟨l, a, by simpa [List.concat_eq_append] using h'⟩
  have hlast : (l ++ [a]).getLastD "" = a := by
    simp [List.getLastD_concat]
  have hdrop : (l ++ [a]).dropLast = l := List.dropLast_concat ..
  rw [tmpPath, parentOf, hdrop, hlast] at h
  have := List.append_inj_right h rfl
  have ha : a ++ ".tmp" = a := by simpa using this
  have hlen : a.length + ".tmp".length = a.length := by
    rw [← String.length_append, ha]
  have h4 : (".tmp" : String).length = 4 := rfl
  rw [h4] at hlen
  omega

lemma atomic_final_files {τ : Type} (fs : FS τ) (t : τ) (p : FPath) :
    (atomic_write_final fs t p).files
      = setFile (setFile (setFile (setFile (mkdirParents fs p).files (tmpPath p)
          (some (.writing t))) (tmpPath p) (some (.full t))) (tmpPath p) none) p
          (some (.full t)) := rfl

lemma atomic_final_isDir {τ : Type} (fs : FS τ) (t : τ) (p : FPath) :
    (atomic_write_final fs t p).isDir = (mkdirParents fs p).isDir := rfl

/-- C5: `atomic_write_csv` serializes to a temporary sibling in the same
directory as the destination and then renames it over the destination:
the final state holds the complete serialization at the destination and
no temporary file, no intermediate state ever shows a partially written
destination, and every ancestor of the destination's parent directory
exists afterwards. -/
theorem C5_atomic_persist :
    ∀ {τ : Type} (fs : FS τ) (t : τ) (p : FPath), p ≠ [] →
      parentOf (tmpPath p) = parentOf p ∧
      (atomic_write_final fs t p).files p = some (.full t) ∧
      (atomic_write_final fs t p).files (tmpPath p) = none ∧
      (∀ s ∈ atomic_write_csv fs t p,
        s.files p = fs.files p ∨ s.files p = some (.full t)) ∧
      (∀ k, (atomic_write_final fs t p).isDir ((parentOf p).take k) = true) := by
  intro τ fs t p hp
  have hne : ¬ p = tmpPath p := fun h => tmpPath_ne hp h.symm
  have hne' : ¬ tmpPath p = p := tmpPath_ne hp
  refine ⟨tmpPath_parent p, ?_, ?_, ?_, ?_⟩
  · rw [atomic_final_files]
    simp [setFile]
  · rw [atomic_final_files]
    simp [setFile, hne']
  · intro s hs
    simp only [atomic_write_csv, List.mem_cons, List.not_mem_nil, or_false] at hs
    rcases hs with rfl | rfl | rfl | rfl
    · exact Or.inl rfl
    · exact Or.inl (by simp [setFile, mkdirParents, hne])
    · exact Or.inl (by simp [setFile, mkdirParents, hne])
    · exact Or.inr (by simp [setFile])
  · intro k
    rw [atomic_final_isDir]
    simp only [mkdirParents, Bool.or_eq_true, beq_iff_eq]
    right
    rw [List.length_take, List.take_eq_take]
    omega

/-- Witness for C5 at a concrete destination path on an empty
filesystem. -/
theorem C5_atomic_persist_witness :
    (atomic_write_final ⟨fun _ => none, fun _ => false⟩ (0 : Nat)
        ["data", "catalogo.csv"]).files ["data", "catalogo.csv"]
      = some (.full 0) ∧
    tmpPath ["data", "catalogo.csv"] = ["data", "catalogo.csv.tmp"] :=
  ⟨(C5_atomic_persist ⟨fun _ => none, fun _ => false⟩ 0 ["data", "catalogo.csv"]
      (by decide)).2.1,
   by decide⟩

/-- C8: stored-path resolution is total (never throws): on non-empty
input it returns the anchored normalized path when that names a file,
otherwise retries the assets directory joined with the normalized
string's basename, otherwise returns the invalid-path sentinel; and for
stored path `"some/missing/dir/cover2.png"` where only
`assets/cover2.png` exists, resolution returns that assets file. -/
theorem C8_path_resolution_fallback :
    (∀ (env : PathEnv) (raw : String), raw ≠ "" →
      (env.isFile (anchor (normRaw raw)) = true →
        normalize_catalog_path env raw = anchor (normRaw raw)) ∧
      (env.isFile (anchor (normRaw raw)) = false →
        env.isFile (joinName ASSETS_DIR (pyPathName (normRaw raw))) = true →
        normalize_catalog_path env raw
          = joinName ASSETS_DIR (pyPathName (normRaw raw))) ∧
      (env.isFile (anchor (normRaw raw)) = false →
        env.isFile (joinName ASSETS_DIR (pyPathName (normRaw raw))) = false →
        normalize_catalog_path env raw = INVALID_PATH)) ∧
    normalize_catalog_path ⟨fun q => q == BASE_DIR ++ ["assets", "cover2.png"]⟩
        "some/missing/dir/cover2.png"
      = BASE_DIR ++ ["assets", "cover2.png"] := by
  refine ⟨fun env raw hraw => ⟨fun h1 => ?_, fun h1 h2 => ?_, fun h1 h2 => ?_⟩, by decide⟩
  · simp [normalize_catalog_path, hraw, h1]
  · simp [normalize_catalog_path, hraw, h1, h2]
  · simp [normalize_catalog_path, hraw, h1, h2]

/-- Witness for C8: on a filesystem with no files at all, every
non-empty stored path resolves to the invalid-path sentinel via both
failed stages. -/
theorem C8_path_resolution_fallback_witness :
    normalize_catalog_path ⟨fun _ => false⟩ "nope.bin" = INVALID_PATH :=
  (C8_path_resolution_fallback.1 ⟨fun _ => false⟩ "nope.bin" (by decide)).2.2 rfl rfl

/-- C9: the known `"assets."`-for-`"assets/"` typo is repaired before
resolution, so the stored paths `"assets.cover1.png"` and
`"assets/cover1.png"` resolve identically in every filesystem state. -/
theorem C9_typo_repair_equivalence :
    ∀ env : PathEnv,
      normalize_catalog_path env "assets.cover1.png"
        = normalize_catalog_path env "assets/cover1.png" := by
  intro env
  have h1 : normRaw "assets.cover1.png" = "assets/cover1.png" := by decide
  have h2 : normRaw "assets/cover1.png" = "assets/cover1.png" := by decide
  rw [normalize_catalog_path, normalize_catalog_path, h1, h2,
    if_neg (by decide : ¬("assets.cover1.png" : String) = ""),
    if_neg (by decide : ¬("assets/cover1.png" : String) = "")]

end AmbrosioPeters
